import Mathlib

/-!
Verification of the craigslistBot incremental crawl and deduplication core.

The definitions below are a shallow embedding of the Python source:

  * src/backend/main.py — production module (scrape_new_listings_data,
    save_listing_ids, get_seen_listing_ids, llm_evaluate_listing,
    get_production_listings, extract_listing_id_from_url,
    craigslist_bot_entry_point);
  * src/main.py — the legacy root-level module (its save_listing_ids differs).

Network, Firestore and OpenAI calls are I/O: their results are passed in as
explicit parameters (an Except value for a fetch or read that can raise, a
function for the scorer).  Per-item detail-page fetches are taken on the
happy path: the fields they produce (text, price, zip) travel inside the raw
item.  Python's builtin string hash is an opaque per-process function and is
passed in as a parameter.
-/

/-- Listing — one discovered item, as the dictionary built in
scrape_new_listings_data (src/backend/main.py lines 906-913). -/
structure Listing where
  id : String
  url : String
  title : String
  text : String
  price : String
  location_zip : String
deriving DecidableEq, Repr

/-- One element of the result page, before id assignment.  The source either
parses the JSON-LD block (a dict) or falls back to DOM elements
(src/backend/main.py lines 761-767); the two shapes are processed by the two
branches of the extraction loop.

For a jsonLd item, resolvedUrl is the listing URL the source resolves by
cross-matching the DOM (lines 793-813); for a dom item, href is the raw link
target (made absolute later) and text, price, locationZip are the fields the
per-item detail fetch extracts (lines 846-895).  A DOM element without a link
never yields a numeric id and is skipped, which the embedding folds into the
id-extraction-failure case. -/
inductive RawItem where
  | jsonLd (title : String) (price : String) (description : String)
      (location : String) (resolvedUrl : String)
  | dom (href : String) (title : String) (text : String) (price : String)
      (locationZip : String)
deriving DecidableEq, Repr

/-- Relative URLs (those whose first character is a slash) are made absolute
against the search URL netloc (src/backend/main.py lines 831-834). -/
def absolutize (netloc url : String) : String :=
  if url.data.take 1 = ['/'] then "https://" ++ netloc ++ url else url

/-- Scan for the first slash that is followed by a nonempty digit run and then
the suffix ".html"; return the digit run.  This is re.search of the pattern
slash-digits-dot-html in extract_listing_id_from_url (src/backend/main.py
lines 682-701): the regex engine takes the leftmost match, and shorter digit
runs at the same slash cannot succeed because the character after a shortened
run is a digit, not a dot.  The second, alternative pattern of the source can
only match where the first already does, so it never adds a match. -/
def findIdMatch : List Char → Option String
  | [] => none
  | c :: rest =>
    if c = '/' ∧ rest.takeWhile Char.isDigit ≠ [] ∧
        (rest.dropWhile Char.isDigit).take 5 = ['.', 'h', 't', 'm', 'l'] then
      some (String.mk (rest.takeWhile Char.isDigit))
    else findIdMatch rest

/-- extract_listing_id_from_url (src/backend/main.py lines 682-701, identical
in src/main.py): the numeric id taken out of a Craigslist listing URL, none
when the URL holds no such id (the caller then skips the element). -/
def extract_listing_id_from_url (url : String) : Option String :=
  findIdMatch url.data

/-- Build the listing dictionary for the element at position i of the result
page, as the body of the extraction loop does (src/backend/main.py lines
777-898).  pyHash stands for Python's builtin hash on strings.  The JSON-LD
branch assigns id json_ld_{i}_{hash(title) mod 100000} (line 791); the DOM
branch assigns id dom_{i}_{numeric id} (line 844) and skips the element when
no numeric id can be extracted (lines 840-842).  Python's mod on a possibly
negative hash is Int.emod, which is nonnegative here. -/
def listingOfRaw (pyHash : String → Int) (netloc : String) (i : Nat) :
    RawItem → Option Listing
  | .jsonLd title price description location resolvedUrl =>
    some { id := "json_ld_" ++ toString i ++ "_" ++ toString ((pyHash title).emod 100000)
           url := resolvedUrl
           title := title
           text := if description = "" then title else description
           price := price
           location_zip := location }
  | .dom href title text price locationZip =>
    let url := absolutize netloc href
    match extract_listing_id_from_url url with
    | none => none
    | some nid =>
      some { id := "dom_" ++ toString i ++ "_" ++ nid
             url := url
             title := title
             text := text
             price := price
             location_zip := locationZip }

/-- The extraction loop of scrape_new_listings_data over the (already
truncated, for an initial run) element list, indexed from i.  An element that
fails to parse is skipped (continue); otherwise, for a subsequent run with a
nonempty seen set, an id found in the seen set stops the loop before the
element is appended (src/backend/main.py lines 900-915). -/
def scrapeLoop (is_initial_run : Bool) (seen_ids : List String)
    (pyHash : String → Int) (netloc : String) : Nat → List RawItem → List Listing
  | _, [] => []
  | i, item :: rest =>
    match listingOfRaw pyHash netloc i item with
    | none => scrapeLoop is_initial_run seen_ids pyHash netloc (i + 1) rest
    | some l =>
      if !is_initial_run && !seen_ids.isEmpty && seen_ids.contains l.id then []
      else l :: scrapeLoop is_initial_run seen_ids pyHash netloc (i + 1) rest

/-- scrape_new_listings_data (src/backend/main.py lines 703-928).  fetched is
the outcome of the search-page fetch and parse: an outright transport error is
caught by the outer try and the listings accumulated so far (none) are
returned (lines 924-928).  On success the element list is truncated to
initial_scrape_count for an initial run only (lines 769-774) and the
extraction loop runs from position 0. -/
def scrape_new_listings_data (is_initial_run : Bool) (initial_scrape_count : Nat)
    (seen_ids : List String) (pyHash : String → Int) (netloc : String)
    (fetched : Except String (List RawItem)) : List Listing :=
  match fetched with
  | .error _ => []
  | .ok elems =>
    let elems := if is_initial_run then elems.take initial_scrape_count else elems
    scrapeLoop is_initial_run seen_ids pyHash netloc 0 elems

/-- The listings the extraction loop would produce with the seen-set stop
disabled: every parseable element in page order, with its position-indexed
id.  Used to state what prefix an incremental run returns. -/
def parsedListings (pyHash : String → Int) (netloc : String) :
    Nat → List RawItem → List Listing
  | _, [] => []
  | i, item :: rest =>
    match listingOfRaw pyHash netloc i item with
    | none => parsedListings pyHash netloc (i + 1) rest
    | some l => l :: parsedListings pyHash netloc (i + 1) rest

/-! Concrete items used by counterexamples and witnesses. -/

/-- A fixed DOM result-page element: the same underlying item regardless of
where in the page it appears. -/
def rawBike : RawItem :=
  .dom "/1234567890.html" "54cm Road Bike" "great bike" "$500" "94105"

/-- A fixed JSON-LD result-page element. -/
def rawBikeJson : RawItem :=
  .jsonLd "54cm Road Bike" "500" "great bike" "94105" "https://sfbay.craigslist.org/1234567890.html"

/-- A hash function standing in for Python's string hash in concrete runs. -/
def hash0 : String → Int := fun _ => 7

def netloc0 : String := "sfbay.craigslist.org"

/-- C1: the listing id computed during scraping embeds the enumeration
position i of the item in the fetched page (json_ld_{i}_... at line 791,
dom_{i}_... at line 844 of src/backend/main.py): the same underlying item
fetched at rank 0 and at rank 1 receives two different identities, in both id
schemes.  This evaluates the code at the failing input of the code_bug
record. -/
theorem C1_position_dependent_identity :
    (listingOfRaw hash0 netloc0 0 rawBike).map Listing.id = some "dom_0_1234567890"
  ∧ (listingOfRaw hash0 netloc0 1 rawBike).map Listing.id = some "dom_1_1234567890"
  ∧ ("dom_0_1234567890" : String) ≠ "dom_1_1234567890"
  ∧ (listingOfRaw hash0 netloc0 0 rawBikeJson).map Listing.id = some "json_ld_0_7"
  ∧ (listingOfRaw hash0 netloc0 1 rawBikeJson).map Listing.id = some "json_ld_1_7"
  ∧ ("json_ld_0_7" : String) ≠ "json_ld_1_7" := by
  refine ⟨by decide, by decide, by decide, by decide, by decide, by decide⟩

/-- Helper for C2: with a nonempty seen set, an incremental (non-initial)
extraction loop returns exactly the parseable elements preceding the first
one whose computed id lies in the seen set. -/
theorem scrapeLoop_incremental_takeWhile (seen_ids : List String)
    (pyHash : String → Int) (netloc : String) (hseen : seen_ids ≠ [])
    (elems : List RawItem) :
    ∀ i, scrapeLoop false seen_ids pyHash netloc i elems
      = (parsedListings pyHash netloc i elems).takeWhile
          (fun l => !seen_ids.contains l.id) := by
  have hne : seen_ids.isEmpty = false := by
    cases seen_ids with
    | nil => exact absurd rfl hseen
    | cons a as => rfl
  induction elems with
  | nil => intro i; rfl
  | cons item rest ih =>
    intro i
    cases hp : listingOfRaw pyHash netloc i item with
    | none =>
      simp only [scrapeLoop, parsedListings, hp]
      exact ih (i + 1)
    | some l =>
      simp only [scrapeLoop, parsedListings, hp, List.takeWhile_cons, hne, Bool.not_false,
        Bool.true_and]
      cases hc : seen_ids.contains l.id with
      | false => simp [hc, ih (i + 1)]
      | true => simp [hc]

/-- C2: an incremental run (non-initial, with at least one previously seen
identity) returns exactly the maximal prefix of parseable fetched items
preceding the first item whose computed identity is in the seen set; in
particular it stops at the first seen item. -/
theorem C2_incremental_early_stop (seen_ids : List String)
    (pyHash : String → Int) (netloc : String) (cnt : Nat)
    (elems : List RawItem) (hseen : seen_ids ≠ []) :
    scrape_new_listings_data false cnt seen_ids pyHash netloc (.ok elems)
      = (parsedListings pyHash netloc 0 elems).takeWhile
          (fun l => !seen_ids.contains l.id) :=
  scrapeLoop_incremental_takeWhile seen_ids pyHash netloc hseen elems 0

/-- Four concrete page elements A, B, C, D in rank order. -/
def rawA : RawItem := .dom "/111.html" "Brand New Bike" "new" "$400" "94105"
def rawB : RawItem := .dom "/222.html" "54cm Road Bike" "great" "$500" "94105"
def rawC : RawItem := .dom "/333.html" "56cm Trek Bike" "good" "$600" "94105"
def rawD : RawItem := .dom "/444.html" "52cm Specialized" "fine" "$700" "94105"

/-- The seen set holding the computed identities of B (rank 1), C (rank 2)
and D (rank 3) but not of A (rank 0). -/
def seenBCD : List String := ["dom_1_222", "dom_2_333", "dom_3_444"]

/-- Witness for C2: on the rank-ordered page A, B, C, D with B, C and D seen
and A unseen, the incremental run returns exactly the listing built from A. -/
theorem C2_witness :
    scrape_new_listings_data false 6 seenBCD hash0 netloc0 (.ok [rawA, rawB, rawC, rawD])
      = (parsedListings hash0 netloc0 0 [rawA, rawB, rawC, rawD]).takeWhile
          (fun l => !seenBCD.contains l.id)
  ∧ scrape_new_listings_data false 6 seenBCD hash0 netloc0 (.ok [rawA, rawB, rawC, rawD])
      = [{ id := "dom_0_111", url := "https://sfbay.craigslist.org/111.html",
           title := "Brand New Bike", text := "new", price := "$400",
           location_zip := "94105" }] :=
  ⟨C2_incremental_early_stop seenBCD hash0 netloc0 6 [rawA, rawB, rawC, rawD] (by decide),
   by decide⟩

/-- Helper for C10: no listing returned by an incremental extraction loop with
a nonempty seen set has its id in the seen set — the membership test runs
before every append and the loop stops at the first hit. -/
theorem scrapeLoop_incremental_not_seen (seen_ids : List String)
    (pyHash : String → Int) (netloc : String) (hseen : seen_ids ≠ [])
    (elems : List RawItem) :
    ∀ i l, l ∈ scrapeLoop false seen_ids pyHash netloc i elems →
      ¬ l.id ∈ seen_ids := by
  have hne : seen_ids.isEmpty = false := by
    cases seen_ids with
    | nil => exact absurd rfl hseen
    | cons a as => rfl
  induction elems with
  | nil => intro i l hl; simp [scrapeLoop] at hl
  | cons item rest ih =>
    intro i l hl
    cases hp : listingOfRaw pyHash netloc i item with
    | none =>
      simp only [scrapeLoop, hp] at hl
      exact ih (i + 1) l hl
    | some l0 =>
      simp [scrapeLoop, hp, hne] at hl
      rcases hl with ⟨hnot, hl⟩
      rcases hl with rfl | hmem
      · exact hnot
      · exact ih (i + 1) l hmem

/-- C10: every listing an incremental run returns is unseen — for a
non-initial scrape invoked with a nonempty seen set, no returned listing has
its computed identity in that set. -/
theorem C10_incremental_returns_only_unseen (seen_ids : List String)
    (pyHash : String → Int) (netloc : String) (cnt : Nat)
    (fetched : Except String (List RawItem)) (l : Listing)
    (hseen : seen_ids ≠ [])
    (hl : l ∈ scrape_new_listings_data false cnt seen_ids pyHash netloc fetched) :
    ¬ l.id ∈ seen_ids := by
  cases fetched with
  | error e => simp [scrape_new_listings_data] at hl
  | ok elems =>
    exact scrapeLoop_incremental_not_seen seen_ids pyHash netloc hseen elems 0 l hl

/-- Witness for C10: the one listing returned on the concrete page A, B, C, D
with B, C, D seen has an identity outside the seen set. -/
theorem C10_witness :
    ¬ ("dom_0_111" : String) ∈ seenBCD := by
  have h := C10_incremental_returns_only_unseen seenBCD hash0 netloc0 6
    (.ok [rawA, rawB, rawC, rawD])
    { id := "dom_0_111", url := "https://sfbay.craigslist.org/111.html",
      title := "Brand New Bike", text := "new", price := "$400",
      location_zip := "94105" }
    (by decide) (by decide)
  exact h

/-! Seen-Set store.  The Firestore collection seen_listings maps a search
hash to a document holding a listing_ids array. -/

/-- The collection state: the stored array per search hash, none when the
document does not exist. -/
def SeenStore : Type := String → Option (List String)

def emptyStore : SeenStore := fun _ => none

/-- get_seen_listing_ids (src/backend/main.py lines 474-507; the same logic
at src/main.py lines 262-295): the stored listing_ids array, or [] when no
document exists for the search hash. -/
def get_seen_listing_ids (store : SeenStore) (search_hash : String) : List String :=
  match store search_hash with
  | some ids => ids
  | none => []

/-- save_listing_ids of the production module (src/backend/main.py lines
509-557): an empty id list is a no-op; otherwise the existing array is read,
the new ids are unioned in with duplicates removed (the source builds
list(set(existing_ids + listing_ids)); a Python set iterates in unspecified
order, so the union is modelled by dedup, which has the same membership), and
the document is overwritten with the combined array. -/
def save_listing_ids (store : SeenStore) (search_hash : String)
    (listing_ids : List String) : SeenStore :=
  if listing_ids = [] then store
  else
    let existing_ids := get_seen_listing_ids store search_hash
    let all_ids := (existing_ids ++ listing_ids).dedup
    fun h => if h = search_hash then some all_ids else store h

namespace Legacy

/-- save_listing_ids of the legacy root module (src/main.py lines 297-332):
an empty id list is a no-op; otherwise the document is overwritten with
exactly the ids passed — the existing array is never read or merged. -/
def save_listing_ids (store : SeenStore) (search_hash : String)
    (listing_ids : List String) : SeenStore :=
  if listing_ids = [] then store
  else fun h => if h = search_hash then some listing_ids else store h

end Legacy

/-- Helper for C3: the production merge never loses a recorded identity. -/
theorem save_listing_ids_keeps_mem (store : SeenStore) (fp : String)
    (ids : List String) (a : String)
    (ha : a ∈ get_seen_listing_ids store fp) :
    a ∈ get_seen_listing_ids (save_listing_ids store fp ids) fp := by
  unfold save_listing_ids
  by_cases hids : ids = []
  · simpa [hids] using ha
  · simp [hids, get_seen_listing_ids, List.mem_dedup, List.mem_append]
    exact Or.inl (by simpa [get_seen_listing_ids] using ha)

/-- C3 (amended): the production store merge (src/backend/main.py) is a
monotonic union — every identity recorded for a fingerprint before a merge is
still recorded afterwards, and two successive merges of x, y and then y, z into
a fresh fingerprint leave exactly the identities x, y, z.  (The legacy
src/main.py merge, by contrast, overwrites: see the counterexample.) -/
theorem C3_backend_merge_monotonic_union (store : SeenStore) (fp : String)
    (ids : List String) (a x y z : String)
    (ha : a ∈ get_seen_listing_ids store fp) :
    a ∈ get_seen_listing_ids (save_listing_ids store fp ids) fp
  ∧ (get_seen_listing_ids
       (save_listing_ids (save_listing_ids emptyStore fp [x, y]) fp [y, z]) fp).toFinset
     = ({x, y, z} : Finset String) := by
  refine ⟨save_listing_ids_keeps_mem store fp ids a ha, ?_⟩
  have h2 : get_seen_listing_ids
      (save_listing_ids (save_listing_ids emptyStore fp [x, y]) fp [y, z]) fp
      = (([x, y].dedup ++ [y, z]).dedup) := by
    simp [save_listing_ids, get_seen_listing_ids, emptyStore]
  rw [h2]
  ext b
  simp [List.mem_dedup]
  tauto

/-- Witness for C3: a concrete store keeps identity a across a merge of b, and
the two successive fresh merges leave exactly x, y, z. -/
theorem C3_witness :
    "a" ∈ get_seen_listing_ids (save_listing_ids (fun _ => some ["a"]) "fp" ["b"]) "fp"
  ∧ (get_seen_listing_ids
       (save_listing_ids (save_listing_ids emptyStore "fp" ["x", "y"]) "fp" ["y", "z"])
       "fp").toFinset
     = ({"x", "y", "z"} : Finset String) :=
  C3_backend_merge_monotonic_union (fun _ => some ["a"]) "fp" ["b"] "a" "x" "y" "z" (by decide)

/-- C3 counterexample: under the legacy root-level save_listing_ids
(src/main.py lines 297-332), merging x, y into a fresh fingerprint and then
merging y, z evicts x — after the second merge, x is no longer recorded, so
the seen set does not equal the union and identities are not append-only. -/
theorem C3_counterexample_legacy_overwrite :
    "x" ∈ get_seen_listing_ids (Legacy.save_listing_ids emptyStore "fp" ["x", "y"]) "fp"
  ∧ ¬ "x" ∈ get_seen_listing_ids
        (Legacy.save_listing_ids
          (Legacy.save_listing_ids emptyStore "fp" ["x", "y"]) "fp" ["y", "z"]) "fp" := by
  refine ⟨by decide, by decide⟩

/-! Evaluation: the external scorer, its fallback handling, and the
threshold filter. -/

/-- EvaluationResult as llm_evaluate_listing returns it.  Scores are
rationals. -/
structure Evaluation where
  match_score : ℚ
  reasoning : String
  feature_match : String
  quality_assessment : String
deriving DecidableEq, Repr

/-- A listing carrying its attached evaluation (the source stores the
evaluation dict under the evaluation key of a copied listing dict,
src/backend/main.py lines 1460-1464). -/
structure EvaluatedListing where
  listing : Listing
  evaluation : Evaluation
deriving DecidableEq, Repr

/-- The outcome of one external-scorer invocation, as llm_evaluate_listing
(src/backend/main.py lines 349-472) distinguishes them: the OpenAI client is
unavailable (lines 360-367); the API call raised (lines 465-472); the reply
held no parseable JSON object (lines 452-463); or a JSON object with the
required fields was parsed (the source fills any missing field with the
string Unknown; ok carries the resulting record). -/
inductive ScorerOutcome where
  | unavailable
  | raised (msg : String)
  | unparseable (raw : String)
  | ok (e : Evaluation)
deriving DecidableEq, Repr

def ScorerOutcome.isFailure : ScorerOutcome → Bool
  | .ok _ => false
  | _ => true

/-- llm_evaluate_listing: each failure mode is caught and replaced by the
neutral result with match_score 0.5 and an explanatory reasoning string
(src/backend/main.py lines 360-367, 455-463 and 465-472). -/
def llm_evaluate_listing : ScorerOutcome → Evaluation
  | .unavailable =>
    { match_score := 0.5, reasoning := "LLM evaluation unavailable",
      feature_match := "Unknown", quality_assessment := "Unknown" }
  | .raised msg =>
    { match_score := 0.5, reasoning := "Evaluation error: " ++ msg,
      feature_match := "Unknown", quality_assessment := "Unknown" }
  | .unparseable _ =>
    { match_score := 0.5, reasoning := "Failed to parse LLM response",
      feature_match := "Unknown", quality_assessment := "Unknown" }
  | .ok e => e

/-- The evaluation loop of the entry point (src/backend/main.py lines
1456-1464): every new listing is scored and paired with its evaluation; no
scorer outcome aborts the loop. -/
def evaluate_new_listings (scorer : Listing → ScorerOutcome)
    (new_listings : List Listing) : List EvaluatedListing :=
  new_listings.map (fun l => { listing := l, evaluation := llm_evaluate_listing (scorer l) })

/-- get_production_listings (src/backend/main.py lines 668-680): keep exactly
the listings whose match_score is at least the threshold (score greater than
or equal, not strictly greater). -/
def get_production_listings (recommended_listings : List EvaluatedListing)
    (threshold : ℚ) : List EvaluatedListing :=
  recommended_listings.filter (fun l => decide (threshold ≤ l.evaluation.match_score))

/-- STRICTNESS_THRESHOLDS (src/backend/main.py lines 46-50) as a partial map;
none models the KeyError a lookup of an unrecognized strictness name raises
(line 1467). -/
def STRICTNESS_THRESHOLDS : String → Option ℚ
  | "less_strict" => some 0.50
  | "strict" => some 0.70
  | "very_strict" => some 0.85
  | _ => none

/-- C8: the evaluation filter retains a listing if and only if it was in the
input and its score is greater than or equal to the threshold; a score
exactly equal to the threshold is therefore included. -/
theorem C8_threshold_boundary_inclusive (recommended_listings : List EvaluatedListing)
    (threshold : ℚ) (l : EvaluatedListing) :
    l ∈ get_production_listings recommended_listings threshold
      ↔ l ∈ recommended_listings ∧ threshold ≤ l.evaluation.match_score := by
  simp [get_production_listings, List.mem_filter]

/-- A fixed listing used in concrete runs. -/
def listing0 : Listing :=
  { id := "dom_0_111", url := "https://sfbay.craigslist.org/111.html",
    title := "Brand New Bike", text := "new", price := "$400",
    location_zip := "94105" }

/-- An evaluation whose score is exactly the strict threshold. -/
def evalAtStrict : Evaluation :=
  { match_score := 0.70, reasoning := "boundary case",
    feature_match := "F", quality_assessment := "Q" }

/-- Witness for C8: a listing scoring exactly 0.70 is retained under the
threshold 0.70. -/
theorem C8_witness :
    ({ listing := listing0, evaluation := evalAtStrict } : EvaluatedListing)
      ∈ get_production_listings [{ listing := listing0, evaluation := evalAtStrict }] 0.70 :=
  (C8_threshold_boundary_inclusive
      [{ listing := listing0, evaluation := evalAtStrict }] 0.70
      { listing := listing0, evaluation := evalAtStrict }).mpr
    ⟨List.mem_cons_self _ _, by simp [evalAtStrict]⟩

/-- C9: every failing scorer outcome (client unavailable, call raised,
unparseable reply) is replaced by the neutral result with score exactly 0.5
and a nonempty explanatory reasoning string, and the evaluation loop still
produces one evaluated listing per input listing — the run continues. -/
theorem C9_scorer_failure_neutral (o : ScorerOutcome)
    (scorer : Listing → ScorerOutcome) (new_listings : List Listing)
    (hfail : o.isFailure = true) :
    (llm_evaluate_listing o).match_score = 0.5
  ∧ (llm_evaluate_listing o).reasoning ≠ ""
  ∧ (evaluate_new_listings scorer new_listings).length = new_listings.length := by
  refine ⟨?_, ?_, by simp [evaluate_new_listings]⟩
  · cases o with
    | ok e => simp [ScorerOutcome.isFailure] at hfail
    | unavailable => rfl
    | raised msg => rfl
    | unparseable raw => rfl
  · cases o with
    | ok e => simp [ScorerOutcome.isFailure] at hfail
    | unavailable => decide
    | raised msg =>
      intro h
      simp only [llm_evaluate_listing] at h
      have hlen := congrArg String.length h
      rw [String.length_append] at hlen
      have h18 : ("Evaluation error: " : String).length = 18 := rfl
      have h0 : ("" : String).length = 0 := rfl
      rw [h18, h0] at hlen
      omega
    | unparseable raw =>
      exact (by decide : ("Failed to parse LLM response" : String) ≠ "")

/-- Witness for C9: the concrete raised outcome yields the neutral 0.5 result
with nonempty reasoning, and a one-listing run still evaluates one listing. -/
theorem C9_witness :
    (llm_evaluate_listing (.raised "boom")).match_score = 0.5
  ∧ (llm_evaluate_listing (.raised "boom")).reasoning ≠ ""
  ∧ (evaluate_new_listings (fun _ => .raised "boom") [listing0]).length
      = [listing0].length :=
  C9_scorer_failure_neutral (.raised "boom") (fun _ => .raised "boom") [listing0] (by decide)

/-! The serverless entry point and its observable outcome. -/

/-- Body of a 200 response of the entry point (src/backend/main.py lines
1365-1378, 1441-1454 and 1530-1543; the sample_listings field, a copy of the
first recommended listings, is omitted). -/
structure ResponseBody where
  message : String
  total_listings : Nat
  new_listings : Nat
  recommended_listings : Nat
  notification_sent : Bool
  strictness_used : String
deriving DecidableEq, Repr

/-- The entry point's result: a 200 body, or the 500 error body the outer
exception handler returns (src/backend/main.py lines 1545-1551). -/
inductive EntryResponse where
  | ok (body : ResponseBody)
  | serverError (error : String)
deriving DecidableEq, Repr

def EntryResponse.statusCode : EntryResponse → Nat
  | .ok _ => 200
  | .serverError _ => 500

/-- Observable outcome of one run: the response plus the effects the run
performed on its collaborators — whether the search-page fetch was issued,
how many scorer invocations ran, which ids were passed to save_listing_ids
(none when it was not called or called with an empty list), and whether that
write succeeded (true when no write was attempted). -/
structure RunTrace where
  response : EntryResponse
  fetch_attempted : Bool
  scorer_calls : Nat
  saved_ids : List String
  save_succeeded : Bool
deriving DecidableEq, Repr

/-- get_seen_listing_ids viewed from the entry point: the try/except catches
a Firestore read failure and returns [] (src/backend/main.py lines 505-507);
an ok value is a successful read (already [] when no document exists). -/
def get_seen_listing_ids_read : Except String (List String) → List String
  | .error _ => []
  | .ok ids => ids

/-- craigslist_bot_entry_point (src/backend/main.py lines 1087-1551) for a
run with seeding off and without the task-history logging (those blocks only
write log lines to the external task store).  Collaborator outcomes are
parameters: seenRead is the Firestore read, fetched the search-page fetch,
scorer the per-listing evaluation outcome, notifyOk the Discord post result,
saveOk the Firestore write result (a write of an empty id list
short-circuits to success, lines 524-526; the entry point discards the write
result either way, lines 1395 and 1526-1527).  The fetch is issued
unconditionally before the strictness threshold lookup; an unrecognized
strictness name raises KeyError at line 1467, which the outer handler turns
into the 500 execution-failed response after the scrape and the evaluation
loop have already run. -/
def craigslist_bot_entry_point
    (strictness : String) (enable_initial_scrape : Bool)
    (initial_scrape_count : Nat)
    (seenRead : Except String (List String))
    (pyHash : String → Int) (netloc : String)
    (fetched : Except String (List RawItem))
    (scorer : Listing → ScorerOutcome)
    (notifyOk saveOk : Bool) : RunTrace :=
  let seen_ids := get_seen_listing_ids_read seenRead
  let is_initial_run := enable_initial_scrape && seen_ids.isEmpty
  let listings := scrape_new_listings_data is_initial_run initial_scrape_count
    seen_ids pyHash netloc fetched
  if listings.isEmpty && !(!is_initial_run && !seen_ids.isEmpty) then
    { response := .ok
        { message := "No listings found - search criteria may need adjustment",
          total_listings := 0, new_listings := 0, recommended_listings := 0,
          notification_sent := false, strictness_used := strictness },
      fetch_attempted := true, scorer_calls := 0, saved_ids := [],
      save_succeeded := true }
  else
    let new_listings := listings
    if new_listings.isEmpty then
      { response := .ok
          { message :=
              if is_initial_run then "No listings found - search criteria may need adjustment"
              else "No new listings found - all listings have been processed previously",
            total_listings := listings.length, new_listings := 0,
            recommended_listings := 0, notification_sent := false,
            strictness_used := strictness },
        fetch_attempted := true, scorer_calls := 0,
        saved_ids := listings.map Listing.id,
        save_succeeded := if listings.isEmpty then true else saveOk }
    else
      let evaluated_listings := evaluate_new_listings scorer new_listings
      match STRICTNESS_THRESHOLDS strictness with
      | none =>
        { response := .serverError
            ("Craigslist bot execution failed: " ++ "'" ++ strictness ++ "'"),
          fetch_attempted := true, scorer_calls := new_listings.length,
          saved_ids := [], save_succeeded := true }
      | some threshold =>
        let recommended_listings := get_production_listings evaluated_listings threshold
        let notification_sent := if recommended_listings.isEmpty then false else notifyOk
        { response := .ok
            { message := "Craigslist bot execution completed",
              total_listings := listings.length,
              new_listings := new_listings.length,
              recommended_listings := recommended_listings.length,
              notification_sent := notification_sent,
              strictness_used := strictness },
          fetch_attempted := true, scorer_calls := new_listings.length,
          saved_ids := if listings.isEmpty then [] else listings.map Listing.id,
          save_succeeded := if listings.isEmpty then true else saveOk }

/-- Helper: a failed fetch yields the empty listing list. -/
theorem scrape_new_listings_data_error (ii : Bool) (cnt : Nat)
    (seen : List String) (ph : String → Int) (nl : String) (msg : String) :
    scrape_new_listings_data ii cnt seen ph nl (.error msg) = [] := rfl

/-- Helper: a fetch that succeeds with zero elements yields the empty listing
list. -/
theorem scrape_new_listings_data_ok_nil (ii : Bool) (cnt : Nat)
    (seen : List String) (ph : String → Int) (nl : String) :
    scrape_new_listings_data ii cnt seen ph nl (.ok []) = [] := by
  cases ii <;> simp [scrape_new_listings_data, scrapeLoop]

/-- The message of a response: the body message of a 200, the error text of a
500. -/
def EntryResponse.messageOf : EntryResponse → String
  | .ok b => b.message
  | .serverError e => e

/-- The reported count of new listings (0 for a 500 response). -/
def EntryResponse.newCount : EntryResponse → Nat
  | .ok b => b.new_listings
  | .serverError _ => 0

/-- The reported count of fetched listings (0 for a 500 response). -/
def EntryResponse.totalCount : EntryResponse → Nat
  | .ok b => b.total_listings
  | .serverError _ => 0

/-- A nonempty list is not isEmpty. -/
theorem list_isEmpty_false_of_ne_nil {α : Type} {l : List α} (h : l ≠ []) :
    l.isEmpty = false := by
  cases l with
  | nil => exact absurd rfl h
  | cons a as => rfl

/-- C4 (amended): an outright fetch failure is caught inside
scrape_new_listings_data, which returns the empty list; the whole run —
response and recorded effects alike — is then identical to a run whose fetch
succeeded with zero items, so the failure is not surfaced as a distinct
outcome. -/
theorem C4_fetch_failure_conflated_with_empty (msg strictness : String)
    (en ii : Bool) (cnt : Nat) (seenRead : Except String (List String))
    (pyHash : String → Int) (netloc : String) (scorer : Listing → ScorerOutcome)
    (notifyOk saveOk : Bool) :
    scrape_new_listings_data ii cnt (get_seen_listing_ids_read seenRead) pyHash netloc
        (.error msg) = []
  ∧ craigslist_bot_entry_point strictness en cnt seenRead pyHash netloc (.error msg)
        scorer notifyOk saveOk
      = craigslist_bot_entry_point strictness en cnt seenRead pyHash netloc (.ok [])
        scorer notifyOk saveOk := by
  refine ⟨rfl, ?_⟩
  simp only [craigslist_bot_entry_point, scrape_new_listings_data_error,
    scrape_new_listings_data_ok_nil]

/-- C4 counterexample: at a concrete configuration, the run whose fetch fails
with a transport error and the run whose fetch genuinely returned zero items
produce the very same trace — a 200 response reporting zero listings
fetched. -/
theorem C4_counterexample_error_equals_empty :
    craigslist_bot_entry_point "strict" true 6 (.ok []) hash0 netloc0
        (.error "connection refused") (fun _ => .unavailable) true true
      = craigslist_bot_entry_point "strict" true 6 (.ok []) hash0 netloc0
        (.ok []) (fun _ => .unavailable) true true
  ∧ (craigslist_bot_entry_point "strict" true 6 (.ok []) hash0 netloc0
        (.error "connection refused") (fun _ => .unavailable) true true).response
      = .ok { message := "No listings found - search criteria may need adjustment",
              total_listings := 0, new_listings := 0, recommended_listings := 0,
              notification_sent := false, strictness_used := "strict" } := by
  exact ⟨by decide, by decide⟩

/-- C5 (amended): a run invoked with an unrecognized strictness name is
rejected, but only through the KeyError raised at the threshold lookup after
the fetch and the evaluation loop have run — the trace shows the fetch
attempted and one scorer call per scraped listing, and the response is the
500 execution-failed error, not a pre-fetch configuration rejection. -/
theorem C5_invalid_threshold_rejected_after_fetch (strictness : String) (en : Bool)
    (cnt : Nat) (seenRead : Except String (List String)) (pyHash : String → Int)
    (netloc : String) (fetched : Except String (List RawItem))
    (scorer : Listing → ScorerOutcome) (notifyOk saveOk : Bool)
    (listings : List Listing)
    (hbad : STRICTNESS_THRESHOLDS strictness = none)
    (hlist : scrape_new_listings_data
        (en && (get_seen_listing_ids_read seenRead).isEmpty) cnt
        (get_seen_listing_ids_read seenRead) pyHash netloc fetched = listings)
    (hne : listings ≠ []) :
    craigslist_bot_entry_point strictness en cnt seenRead pyHash netloc fetched
        scorer notifyOk saveOk
      = { response := .serverError
            ("Craigslist bot execution failed: " ++ "'" ++ strictness ++ "'"),
          fetch_attempted := true, scorer_calls := listings.length,
          saved_ids := [], save_succeeded := true } := by
  have hie := list_isEmpty_false_of_ne_nil hne
  simp [craigslist_bot_entry_point, hlist, hie, hbad]

/-- Witness for C5: a concrete run with the unrecognized name no_such_level
and one fetched item ends in the 500 error with the item already scraped and
scored. -/
theorem C5_witness :
    craigslist_bot_entry_point "no_such_level" true 6 (.ok []) hash0 netloc0
        (.ok [rawA]) (fun _ => .unavailable) true true
      = { response := .serverError
            ("Craigslist bot execution failed: " ++ "'" ++ "no_such_level" ++ "'"),
          fetch_attempted := true, scorer_calls := [listing0].length,
          saved_ids := [], save_succeeded := true } :=
  C5_invalid_threshold_rejected_after_fetch "no_such_level" true 6 (.ok []) hash0 netloc0
    (.ok [rawA]) (fun _ => .unavailable) true true [listing0]
    (by decide) (by decide) (by decide)

/-- C5 counterexample: with the unrecognized strictness name super_strict and
one available item, the run does scrape and evaluate the item (one scorer
call) before failing with the 500 error — the configuration error does not
precede the fetch. -/
theorem C5_counterexample_fetch_before_config_check :
    (craigslist_bot_entry_point "super_strict" true 6 (.ok []) hash0 netloc0
        (.ok [rawBike]) (fun _ => .unavailable) true true).response
      = .serverError "Craigslist bot execution failed: 'super_strict'"
  ∧ (craigslist_bot_entry_point "super_strict" true 6 (.ok []) hash0 netloc0
        (.ok [rawBike]) (fun _ => .unavailable) true true).fetch_attempted = true
  ∧ (craigslist_bot_entry_point "super_strict" true 6 (.ok []) hash0 netloc0
        (.ok [rawBike]) (fun _ => .unavailable) true true).scorer_calls = 1 := by
  exact ⟨by decide, by decide, by decide⟩

/-- C6 (amended): persistence failures are not fatal.  A failed seen-set read
is caught inside get_seen_listing_ids and the run proceeds exactly as if the
seen set were empty (the full trace is equal), and the response never depends
on whether the seen-set write succeeded — its result is discarded. -/
theorem C6_persistence_failures_nonfatal (e strictness : String) (en : Bool)
    (cnt : Nat) (pyHash : String → Int) (netloc : String)
    (fetched : Except String (List RawItem)) (scorer : Listing → ScorerOutcome)
    (notifyOk saveOk saveOk2 : Bool) :
    craigslist_bot_entry_point strictness en cnt (.error e) pyHash netloc fetched
        scorer notifyOk saveOk
      = craigslist_bot_entry_point strictness en cnt (.ok []) pyHash netloc fetched
        scorer notifyOk saveOk
  ∧ (craigslist_bot_entry_point strictness en cnt (.ok []) pyHash netloc fetched
        scorer notifyOk saveOk).response
      = (craigslist_bot_entry_point strictness en cnt (.ok []) pyHash netloc fetched
        scorer notifyOk saveOk2).response := by
  refine ⟨rfl, ?_⟩
  simp only [craigslist_bot_entry_point]
  split_ifs <;> try rfl
  cases STRICTNESS_THRESHOLDS strictness <;> rfl

/-- C6 counterexample: a concrete run in which the seen-set read raises and
the seen-set write fails still completes with a 200 execution-completed
response, and it does pass the scraped identity to the store — nothing is
aborted and the write failure is invisible in the outcome. -/
theorem C6_counterexample_persistence_failure_ignored :
    ((craigslist_bot_entry_point "strict" true 6 (.error "firestore down") hash0 netloc0
        (.ok [rawBike]) (fun _ => .ok evalAtStrict) true false).response).statusCode = 200
  ∧ ((craigslist_bot_entry_point "strict" true 6 (.error "firestore down") hash0 netloc0
        (.ok [rawBike]) (fun _ => .ok evalAtStrict) true false).response).messageOf
      = "Craigslist bot execution completed"
  ∧ (craigslist_bot_entry_point "strict" true 6 (.error "firestore down") hash0 netloc0
        (.ok [rawBike]) (fun _ => .ok evalAtStrict) true false).saved_ids
      = ["dom_0_1234567890"]
  ∧ (craigslist_bot_entry_point "strict" true 6 (.error "firestore down") hash0 netloc0
        (.ok [rawBike]) (fun _ => .ok evalAtStrict) true false).save_succeeded = false := by
  exact ⟨by decide, by decide, by decide, by decide⟩

/-- Helper: the extraction loop returns at most one listing per page
element. -/
theorem scrapeLoop_length_le (ii : Bool) (seen : List String)
    (ph : String → Int) (nl : String) (elems : List RawItem) :
    ∀ i, (scrapeLoop ii seen ph nl i elems).length ≤ elems.length := by
  induction elems with
  | nil => intro i; simp [scrapeLoop]
  | cons a rest ih =>
    intro i
    cases hp : listingOfRaw ph nl i a with
    | none =>
      simp only [scrapeLoop, hp, List.length_cons]
      exact Nat.le_trans (ih (i + 1)) (Nat.le_succ _)
    | some l =>
      simp only [scrapeLoop, hp, List.length_cons]
      split
      · simp
      · simp only [List.length_cons]
        exact Nat.succ_le_succ (ih (i + 1))

/-- Helper: in initial-run mode the seen set is never consulted — the loop
behaves identically with any seen set and with the empty one, so there is no
early stop. -/
theorem scrapeLoop_initial_ignores_seen (seen : List String)
    (ph : String → Int) (nl : String) (elems : List RawItem) :
    ∀ i, scrapeLoop true seen ph nl i elems = scrapeLoop true [] ph nl i elems := by
  induction elems with
  | nil => intro i; rfl
  | cons a rest ih =>
    intro i
    cases hp : listingOfRaw ph nl i a with
    | none =>
      simp only [scrapeLoop, hp]
      exact ih (i + 1)
    | some l =>
      simp [scrapeLoop, hp, ih (i + 1)]

/-- C7: an initial run over a page of 50 available items with limit 6 returns
at most 6 listings; the initial-mode scrape applies no early stop (it is
identical under any seen set, so already-seen items are included too); and in
the entry point's initial run every returned listing is treated as new — the
reported new-listing count always equals the reported fetched count. -/
theorem C7_initial_run_bounded (elems : List RawItem) (seen_ids : List String)
    (pyHash : String → Int) (netloc : String) (strictness : String)
    (scorer : Listing → ScorerOutcome) (notifyOk saveOk : Bool)
    (hlen : elems.length = 50) :
    (scrape_new_listings_data true 6 seen_ids pyHash netloc (.ok elems)).length ≤ 6
  ∧ scrape_new_listings_data true 6 seen_ids pyHash netloc (.ok elems)
      = scrape_new_listings_data true 6 [] pyHash netloc (.ok elems)
  ∧ ((craigslist_bot_entry_point strictness true 6 (.ok []) pyHash netloc (.ok elems)
        scorer notifyOk saveOk).response).newCount
      = ((craigslist_bot_entry_point strictness true 6 (.ok []) pyHash netloc (.ok elems)
        scorer notifyOk saveOk).response).totalCount := by
  refine ⟨?_, ?_, ?_⟩
  · have he : scrape_new_listings_data true 6 seen_ids pyHash netloc (.ok elems)
        = scrapeLoop true seen_ids pyHash netloc 0 (elems.take 6) := rfl
    rw [he]
    refine Nat.le_trans (scrapeLoop_length_le true seen_ids pyHash netloc (elems.take 6) 0) ?_
    rw [List.length_take]
    exact min_le_left _ _
  · show scrapeLoop true seen_ids pyHash netloc 0 (elems.take 6)
        = scrapeLoop true [] pyHash netloc 0 (elems.take 6)
    exact scrapeLoop_initial_ignores_seen seen_ids pyHash netloc (elems.take 6) 0
  · simp only [craigslist_bot_entry_point, get_seen_listing_ids_read, List.isEmpty_nil,
      Bool.and_true, Bool.not_true, Bool.false_and, Bool.not_false, Bool.and_false]
    split_ifs with h1
    · rfl
    · cases STRICTNESS_THRESHOLDS strictness <;> rfl

/-- Witness for C7: the concrete 50-item page yields at most 6 listings, the
initial scrape is unchanged by a nonempty seen set, and the concrete run
reports equal new and fetched counts. -/
theorem C7_witness :
    (scrape_new_listings_data true 6 seenBCD hash0 netloc0
        (.ok (List.replicate 50 rawBike))).length ≤ 6
  ∧ scrape_new_listings_data true 6 seenBCD hash0 netloc0
        (.ok (List.replicate 50 rawBike))
      = scrape_new_listings_data true 6 [] hash0 netloc0
        (.ok (List.replicate 50 rawBike))
  ∧ ((craigslist_bot_entry_point "less_strict" true 6 (.ok []) hash0 netloc0
        (.ok (List.replicate 50 rawBike)) (fun _ => .unavailable) true true).response).newCount
      = ((craigslist_bot_entry_point "less_strict" true 6 (.ok []) hash0 netloc0
        (.ok (List.replicate 50 rawBike)) (fun _ => .unavailable) true true).response).totalCount :=
  C7_initial_run_bounded (List.replicate 50 rawBike) seenBCD hash0 netloc0 "less_strict"
    (fun _ => .unavailable) true true (by decide)
